import Mathlib

/-!
Formal model of the metrics_copilot statistical pipeline
(src/metrics_copilot/analysis_experiments.py, analysis_trends.py,
profiling.py, decomposition.py, insights.py), as a shallow embedding
over exact rationals, together with theorems settling the frozen
claims about it.

Modelling conventions:
* pandas/numpy floats are modelled as exact rationals (ℚ); values that
  can be NaN are modelled as Option ℚ (none = NaN).
* square roots (pandas/numpy std) are not rational, so every
  definition that needs one is parametrised by an abstract
  sqrtFn : ℚ → ℚ standing for the float square root applied to the
  (rational) variance.  No claim below depends on the value of sqrtFn.
* scipy.stats.ttest_ind is a transcendental computation; it enters the
  model as an oracle pOf returning the p-value (none = NaN).
* np.random.choice resampling enters the model as an oracle list of
  resample draws: one (control resample, test resample) value pair per
  bootstrap iteration.
* IEEE behaviour of unguarded float divisions (inf / nan, comparisons
  with nan) is modelled explicitly by the FVal type below.
* Python round(x, d) is modelled as exact half-even rounding of the
  rational x at d decimal digits.
-/

namespace MetricsCopilot

/-- Sum of a list of rationals. -/
def sumQ (xs : List ℚ) : ℚ := xs.foldr (fun a b => a + b) 0

/-- Mean of a list of rationals.  pandas mean of a nonempty series; the
empty case (which pandas maps to NaN) is given the junk value 0 and is
never reached at call sites that feed it to further arithmetic. -/
def meanQ (xs : List ℚ) : ℚ := sumQ xs / xs.length

/-- pandas Series.mean with skipna: none when every value is missing. -/
def meanO (xs : List (Option ℚ)) : Option ℚ :=
  let vs := xs.filterMap id
  if vs.isEmpty then none else some (meanQ vs)

/-- Sample variance (ddof = 1), the quantity under pandas Series.std. -/
def sampleVar (xs : List ℚ) : ℚ :=
  sumQ (xs.map (fun x => (x - meanQ xs) ^ 2)) / ((xs.length : ℚ) - 1)

/-- Population variance (ddof = 0), the quantity under np.std. -/
def popVar (xs : List ℚ) : ℚ :=
  sumQ (xs.map (fun x => (x - meanQ xs) ^ 2)) / (xs.length : ℚ)

/-- pandas Series.std (ddof = 1): NaN (none) on fewer than two values. -/
def stdO (sqrtFn : ℚ → ℚ) (xs : List ℚ) : Option ℚ :=
  if 2 ≤ xs.length then some (sqrtFn (sampleVar xs)) else none

/-- np.std (ddof = 0) of a nonempty array. -/
def stdPop (sqrtFn : ℚ → ℚ) (xs : List ℚ) : ℚ := sqrtFn (popVar xs)

/-- Python round to an integer: half-even (banker) rounding. -/
def pyRoundInt (y : ℚ) : ℤ :=
  if y - ⌊y⌋ < 1 / 2 then ⌊y⌋
  else if 1 / 2 < y - ⌊y⌋ then ⌊y⌋ + 1
  else if ⌊y⌋ % 2 = 0 then ⌊y⌋ else ⌊y⌋ + 1

/-- Python round(x, d): half-even rounding at d decimal digits. -/
def pyRound (x : ℚ) (d : ℕ) : ℚ := (pyRoundInt (x * 10 ^ d) : ℚ) / 10 ^ d

/-- Model of an IEEE double as far as the pipeline observes one:
a finite (rational) value, a signed infinity, or NaN. -/
inductive FVal where
  | fin (x : ℚ)
  | pinf
  | ninf
  | nan
deriving DecidableEq

/-- IEEE strict less-than: false whenever either side is NaN. -/
def FVal.lt : FVal → FVal → Bool
  | FVal.fin a, FVal.fin b => a < b
  | FVal.fin _, FVal.pinf => true
  | FVal.ninf, FVal.fin _ => true
  | FVal.ninf, FVal.pinf => true
  | _, _ => false

/-- IEEE strict greater-than. -/
def FVal.gt (a b : FVal) : Bool := FVal.lt b a

/-- IEEE division as the pipeline can reach it: finite by finite
(with the zero-denominator cases producing infinities or NaN exactly
as numpy float64 division does), and NaN propagation. -/
def FVal.div : FVal → FVal → FVal
  | FVal.fin a, FVal.fin b =>
      if b = 0 then (if a = 0 then FVal.nan else if 0 < a then FVal.pinf else FVal.ninf)
      else FVal.fin (a / b)
  | FVal.fin _, FVal.pinf => FVal.fin 0
  | FVal.fin _, FVal.ninf => FVal.fin 0
  | FVal.pinf, FVal.fin b => if 0 ≤ b then FVal.pinf else FVal.ninf
  | FVal.ninf, FVal.fin b => if 0 ≤ b then FVal.ninf else FVal.pinf
  | _, _ => FVal.nan

/-- Multiplication of an FVal by a rational scalar. -/
def FVal.mulQ : FVal → ℚ → FVal
  | FVal.fin a, c => FVal.fin (a * c)
  | FVal.pinf, c => if c = 0 then FVal.nan else if 0 < c then FVal.pinf else FVal.ninf
  | FVal.ninf, c => if c = 0 then FVal.nan else if 0 < c then FVal.ninf else FVal.pinf
  | FVal.nan, _ => FVal.nan

/-- Python max(a, b): returns b only when b > a, hence sticks to the
first argument on NaN comparisons. -/
def pyMax (a b : FVal) : FVal := if FVal.gt b a then b else a

/-- Python min(a, b). -/
def pyMin (a b : FVal) : FVal := if FVal.lt b a then b else a

/-- Lift a possibly-NaN rational into the float model. -/
def ofOpt : Option ℚ → FVal
  | some x => FVal.fin x
  | none => FVal.nan

/-- Character-list prefix test. -/
def isPrefOf : List Char → List Char → Bool
  | [], _ => true
  | _ :: _, [] => false
  | a :: as, b :: bs => a == b && isPrefOf as bs

/-- Character-list substring test. -/
def isSubstrOf (needle : List Char) : List Char → Bool
  | [] => needle.isEmpty
  | b :: bs => isPrefOf needle (b :: bs) || isSubstrOf needle bs

/-- Python "needle in hay" on strings: substring containment. -/
def strContains (hay needle : String) : Bool := isSubstrOf needle.data hay.data

/-- ASCII lower-casing of one character (str.lower on the pipeline's
ASCII column and variant names). -/
def lowerChar (c : Char) : Char :=
  if 65 ≤ c.toNat ∧ c.toNat ≤ 90 then Char.ofNat (c.toNat + 32) else c

/-- str.lower, character by character. -/
def lowerStr (s : String) : String := String.mk (s.data.map lowerChar)

/-- str.endswith, on the character lists. -/
def endsWithStr (s t : String) : Bool := t.data.isSuffixOf s.data

/-- pandas Series.unique on the non-null values: first-appearance
order, duplicates removed. -/
def uniqueInOrder {α : Type} [DecidableEq α] (xs : List α) : List α :=
  xs.foldl (fun acc x => if x ∈ acc then acc else acc ++ [x]) []

/-- Control keyword table of identify_control_variant
(analysis_experiments.py line 108). -/
def controlKeywords : List String := ["control", "baseline", "original", "a"]

/-- One lowercased variant label matches when any control keyword is a
substring of it (Python: any(keyword in v_str for keyword in ...)). -/
def matchesControlKeyword (v : String) : Bool :=
  controlKeywords.any (fun k => strContains (lowerStr v) k)

/-- identify_control_variant (analysis_experiments.py lines 96-114):
scan the variant labels in list order and return the first whose
lowercased form contains any control keyword as a substring; fall back
to the first variant.  (The Python code indexes variants[0]; callers
guarantee nonemptiness, the model returns "" on the empty list.) -/
def identify_control_variant (variants : List String) : String :=
  match variants.find? matchesControlKeyword with
  | some v => v
  | none => variants.headD ""

/-- np.percentile with the default linear interpolation on a nonempty
array; none on the empty array, where numpy raises. -/
def percentileO (xs : List ℚ) (q : ℚ) : Option ℚ :=
  let ys := xs.mergeSort (fun a b => a ≤ b)
  match ys with
  | [] => none
  | _ :: _ =>
    let pos := q / 100 * ((ys.length : ℚ) - 1)
    let i := (⌊pos⌋).toNat
    let lo := ys.getD i 0
    let hi := ys.getD (i + 1) lo
    some (lo + (pos - (i : ℚ)) * (hi - lo))

/-- Bootstrap uplift samples (analysis_experiments.py lines 136-146):
each oracle draw holds the values np.random.choice resampled from the
control and test arrays for that iteration; a draw whose resampled
control mean is 0 is discarded. -/
def bootstrapUplifts (draws : List (List ℚ × List ℚ)) : List ℚ :=
  draws.filterMap (fun d =>
    let cm := meanQ d.1
    if cm ≠ 0 then some ((meanQ d.2 - cm) / cm * 100) else none)

/-- bootstrap_ci (analysis_experiments.py lines 117-153): percentile
confidence interval of the bootstrap uplift percentages.  Returns none
exactly when no uplift sample survives, where np.percentile raises. -/
def bootstrap_ci (draws : List (List ℚ × List ℚ)) (confidence : ℚ) :
    Option (ℚ × ℚ) :=
  let uplifts := bootstrapUplifts draws
  let a := 1 - confidence
  match percentileO uplifts (a / 2 * 100), percentileO uplifts ((1 - a / 2) * 100) with
  | some lo, some hi => some (lo, hi)
  | _, _ => none

/-- The four warnings generate_experiment_warnings can emit, in source
order: small sample, unbalanced sample sizes, high variance, large
variance difference (Simpson paradox risk). -/
inductive ExpWarning where
  | smallSample
  | unbalanced
  | highVariance
  | varianceDiff
deriving DecidableEq

/-- generate_experiment_warnings (analysis_experiments.py lines
156-206).  The stdev/mean and stdev/stdev divisions are unguarded in
the source and run under IEEE float semantics, hence FVal. -/
def generate_experiment_warnings (controlCount testCount : ℕ)
    (controlStd testStd : Option ℚ) (controlMean testMean : ℚ) :
    List ExpWarning :=
  let w1 := if controlCount < 100 ∨ testCount < 100 then [ExpWarning.smallSample] else []
  let rat := ((max controlCount testCount : ℕ) : ℚ) / ((min controlCount testCount : ℕ) : ℚ)
  let w2 := if 2 < rat then [ExpWarning.unbalanced] else []
  let cs := ofOpt controlStd
  let ts := ofOpt testStd
  let w3 :=
    if (FVal.gt (FVal.div cs (FVal.fin controlMean)) (FVal.fin 1)
        || FVal.gt (FVal.div ts (FVal.fin testMean)) (FVal.fin 1)) = true
    then [ExpWarning.highVariance] else []
  let w4 :=
    if FVal.gt (FVal.div (pyMax cs ts) (pyMin cs ts)) (FVal.fin 2) = true
    then [ExpWarning.varianceDiff] else []
  w1 ++ w2 ++ w3 ++ w4

/-- ExperimentResult (schemas.py) with the numeric fields rounded
exactly as analyze_experiment stores them; warning strings are
abstracted to their kinds. -/
structure ExperimentResult where
  kpi : String
  control_mean : ℚ
  test_mean : ℚ
  control_std : Option ℚ
  test_std : Option ℚ
  control_count : ℕ
  test_count : ℕ
  uplift_abs : ℚ
  uplift_pct : ℚ
  ci_lower : ℚ
  ci_upper : ℚ
  p_value : Option ℚ
  significant : Bool
  warnings : List ExpWarning
deriving DecidableEq

/-- Percent uplift (analysis_experiments.py line 58): 0 on a zero
control mean. -/
def upliftPctOf (upliftAbs controlMean : ℚ) : ℚ :=
  if controlMean ≠ 0 then upliftAbs / controlMean * 100 else 0

/-- Significance rule (analysis_experiments.py line 67): p below alpha
and a CI whose bounds multiply to a positive number.  A NaN p-value
(none) compares false. -/
def significanceRule (p : Option ℚ) (alpha ciLower ciUpper : ℚ) : Bool :=
  (match p with
   | some pv => decide (pv < alpha)
   | none => false) && decide (0 < ciLower * ciUpper)

/-- The body of the per-(KPI, test-variant) iteration of
analyze_experiment (analysis_experiments.py lines 49-91), for
nonempty control and test samples.  Returns none exactly when
bootstrap_ci fails, where the Python call would raise. -/
def analyzePair (sqrtFn : ℚ → ℚ) (p : Option ℚ)
    (draws : List (List ℚ × List ℚ)) (alpha : ℚ) (kpi : String)
    (controlData testData : List ℚ) : Option ExperimentResult :=
  let control_mean := meanQ controlData
  let test_mean := meanQ testData
  let control_std := stdO sqrtFn controlData
  let test_std := stdO sqrtFn testData
  let uplift_abs := test_mean - control_mean
  let uplift_pct := upliftPctOf uplift_abs control_mean
  match bootstrap_ci draws (95 / 100) with
  | none => none
  | some (ciL, ciU) =>
    some
      { kpi := kpi
        control_mean := pyRound control_mean 6
        test_mean := pyRound test_mean 6
        control_std := control_std.map (fun s => pyRound s 6)
        test_std := test_std.map (fun s => pyRound s 6)
        control_count := controlData.length
        test_count := testData.length
        uplift_abs := pyRound uplift_abs 6
        uplift_pct := pyRound uplift_pct 2
        ci_lower := pyRound ciL 2
        ci_upper := pyRound ciU 2
        p_value := p.map (fun pv => pyRound pv 4)
        significant := significanceRule p alpha ciL ciU
        warnings := generate_experiment_warnings controlData.length testData.length
          control_std test_std control_mean test_mean }

/-- Rows of the kpi column restricted to one variant, nulls dropped
(df[df[experiment_col] == v][kpi].dropna()). -/
def selectRows (expCol : List (Option String)) (colVals : List (Option ℚ))
    (v : String) : List ℚ :=
  (expCol.zip colVals).filterMap (fun p => if p.1 = some v then p.2 else none)

/-- Option-valued structural mapM over a list. -/
def mapMO {α β : Type} (f : α → Option β) : List α → Option (List β)
  | [] => some []
  | a :: as =>
    match f a, mapMO f as with
    | some b, some bs => some (b :: bs)
    | _, _ => none

/-- analyze_experiment (analysis_experiments.py lines 10-93).  The
dataframe is the variant column plus the named numeric columns, rows
aligned by position.  Returns none when any processed pair raises
(empty bootstrap percentile); otherwise the list of results in loop
order. -/
def analyze_experiment (sqrtFn : ℚ → ℚ) (pOf : List ℚ → List ℚ → Option ℚ)
    (drawsOf : String → String → List (List ℚ × List ℚ))
    (expCol : List (Option String)) (columns : List (String × List (Option ℚ)))
    (kpiColumns : List String) (alpha : ℚ) : Option (List ExperimentResult) :=
  let variants := uniqueInOrder (expCol.filterMap id)
  if variants.length < 2 then some []
  else
    let control := identify_control_variant variants
    let testVariants := variants.filter (fun v => v ≠ control)
    let pairs :=
      (kpiColumns.filterMap (fun k =>
        (columns.find? (fun c => c.1 = k)).map (fun c => (k, c.2)))).flatMap
        (fun kc => testVariants.map (fun v => (kc.1, kc.2, v)))
    (mapMO (fun kv =>
      let controlData := selectRows expCol kv.2.1 control
      let testData := selectRows expCol kv.2.1 kv.2.2
      if controlData.length = 0 ∨ testData.length = 0 then some none
      else (analyzePair sqrtFn (pOf testData controlData) (drawsOf kv.1 kv.2.2)
        alpha kv.1 controlData testData).map some) pairs).map
      (fun l => l.filterMap id)

/-- pandas Series.pct_change on a rational series, under IEEE float
semantics: a zero previous value produces a signed infinity (or NaN
for 0 over 0). -/
def pctChanges (xs : List ℚ) : List FVal :=
  (xs.zip xs.tail).map (fun p =>
    if p.1 = 0 then
      (if 0 < p.2 then FVal.pinf else if p.2 < 0 then FVal.ninf else FVal.nan)
    else FVal.fin ((p.2 - p.1) / p.1))

/-- NaN test on the float model. -/
def isNaF : FVal → Bool
  | FVal.nan => true
  | _ => false

/-- Series.dropna: removes NaN but keeps infinities. -/
def dropNaF (l : List FVal) : List FVal := l.filter (fun v => !isNaF v)

/-- Extract the finite values of an FVal list when all are finite. -/
def finValsOf (l : List FVal) : Option (List ℚ) :=
  mapMO (fun v => match v with | FVal.fin x => some x | _ => none) l

/-- pandas Series.std over an FVal series: NaN on fewer than two
values or on any infinite value. -/
def stdF (sqrtFn : ℚ → ℚ) (l : List FVal) : FVal :=
  if l.length < 2 then FVal.nan
  else
    match finValsOf l with
    | some vs => FVal.fin (sqrtFn (sampleVar vs))
    | none => FVal.nan

/-- Volatility of determine_direction (analysis_trends.py lines
90-91): stdev of the period-over-period relative changes times 100,
or 0 when fewer than two changes survive dropna. -/
def volatilityOf (sqrtFn : ℚ → ℚ) (series : List ℚ) : FVal :=
  let returns := dropNaF (pctChanges series)
  if 1 < returns.length then FVal.mulQ (stdF sqrtFn returns) 100 else FVal.fin 0

/-- determine_direction (analysis_trends.py lines 76-111). -/
def determine_direction (sqrtFn : ℚ → ℚ) (overallChange recentChange : ℚ)
    (series : List ℚ) : String :=
  let volatility := volatilityOf sqrtFn series
  if FVal.gt volatility (FVal.fin 20) = true then "volatile"
  else if |overallChange| < 5 ∧ |recentChange| < 5 then "stable"
  else if 5 < recentChange then "increasing"
  else if recentChange < -5 then "decreasing"
  else if 5 < overallChange then "increasing"
  else if overallChange < -5 then "decreasing"
  else "stable"

/-- ChangePoint (schemas.py), the date kept as the integer key of the
daily aggregation; numeric fields rounded as the source stores them. -/
structure ChangePoint where
  date : ℤ
  kpi : String
  before_mean : ℚ
  after_mean : ℚ
  delta_abs : ℚ
  delta_pct : ℚ
  confidence : String
deriving DecidableEq

/-- detect_change_points_simple (analysis_trends.py lines 220-257):
sliding-window z-score shift detector with earliest-wins suppression
of candidates closer than minSize to the previous one. -/
def detect_change_points_simple (sqrtFn : ℚ → ℚ) (values : List ℚ)
    (minSize : ℕ) : List ℕ :=
  if values.length < minSize * 2 then []
  else
    (List.range' minSize (values.length - 2 * minSize)).foldl (fun cps i =>
      let before := (values.take i).drop (i - minSize)
      let after := (values.take (i + minSize)).drop i
      let beforeMean := meanQ before
      let afterMean := meanQ after
      let beforeStd := stdPop sqrtFn before
      if beforeStd = 0 then cps
      else if 2 < |afterMean - beforeMean| / beforeStd then
        match cps.getLast? with
        | none => cps ++ [i]
        | some j => if minSize ≤ i - j then cps ++ [i] else cps
      else cps) []

/-- Coefficient of variation of a pandas series as
determine_changepoint_confidence computes it (analysis_trends.py
lines 274-275): std over mean when the mean is nonzero, and the
constant 1 on a zero mean; NaN (none) when the mean or std is NaN. -/
def seriesCv (sqrtFn : ℚ → ℚ) (xs : List ℚ) : Option ℚ :=
  if xs.isEmpty then none
  else if meanQ xs ≠ 0 then (stdO sqrtFn xs).map (fun s => s / meanQ xs)
  else some 1

/-- determine_changepoint_confidence (analysis_trends.py lines
260-282); NaN coefficients compare false, as in IEEE floats. -/
def determine_changepoint_confidence (sqrtFn : ℚ → ℚ)
    (before after : List ℚ) (deltaPct : ℚ) : String :=
  let beforeCv := ofOpt (seriesCv sqrtFn before)
  let afterCv := ofOpt (seriesCv sqrtFn after)
  if 30 < |deltaPct| ∧ FVal.lt beforeCv (FVal.fin (2 / 10)) = true
      ∧ FVal.lt afterCv (FVal.fin (2 / 10)) = true then "high"
  else if 20 < |deltaPct| ∨ (FVal.lt beforeCv (FVal.fin (3 / 10)) = true
      ∧ FVal.lt afterCv (FVal.fin (3 / 10)) = true) then "medium"
  else "low"

/-- groupby(date_col)[kpi].mean().dropna(): ascending date keys, mean
of the non-null values per date, dates whose group is all-null
dropped. -/
def groupbyMeanDropna (rows : List (ℤ × Option ℚ)) : List (ℤ × ℚ) :=
  let dates := (uniqueInOrder (rows.map Prod.fst)).mergeSort (fun a b => a ≤ b)
  dates.filterMap (fun d =>
    (meanO ((rows.filter (fun r => r.1 = d)).map Prod.snd)).map (fun m => (d, m)))

/-- Percent delta of a change point (analysis_trends.py line 193):
0 on a zero before-mean. -/
def deltaPctOf (deltaAbs beforeMean : ℚ) : ℚ :=
  if beforeMean ≠ 0 then deltaAbs / beforeMean * 100 else 0

/-- Comparator of the final change-point sort (analysis_trends.py
line 215): descending absolute percent delta. -/
def cpLe (a b : ChangePoint) : Bool := |b.delta_pct| ≤ |a.delta_pct|

/-- detect_change_points (analysis_trends.py lines 147-217): per-KPI
daily aggregation, candidate detection, recomputed clipped windows,
the below-10-percent filter, then the merged results sorted by
absolute percent delta descending and truncated to the top 10.  Each
KPI enters as its name with the (date, value) rows of the dataframe. -/
def detect_change_points (sqrtFn : ℚ → ℚ)
    (kpiData : List (String × List (ℤ × Option ℚ))) (minSize : ℕ) :
    List ChangePoint :=
  let cpsAll := kpiData.flatMap (fun kd =>
    let daily := groupbyMeanDropna kd.2
    if daily.length < minSize * 2 then []
    else
      let values := daily.map Prod.snd
      (detect_change_points_simple sqrtFn values minSize).filterMap (fun cpIdx =>
        if daily.length ≤ cpIdx ∨ cpIdx < minSize then none
        else
          let before := (values.take cpIdx).drop (cpIdx - minSize)
          let after := (values.take (cpIdx + minSize)).drop cpIdx
          if before.length = 0 ∨ after.length = 0 then none
          else
            let beforeMean := meanQ before
            let afterMean := meanQ after
            let deltaAbs := afterMean - beforeMean
            let deltaPct := deltaPctOf deltaAbs beforeMean
            if |deltaPct| < 10 then none
            else
              some
                { date := (daily.getD cpIdx (0, 0)).1
                  kpi := kd.1
                  before_mean := pyRound beforeMean 4
                  after_mean := pyRound afterMean 4
                  delta_abs := pyRound deltaAbs 4
                  delta_pct := pyRound deltaPct 2
                  confidence :=
                    determine_changepoint_confidence sqrtFn before after deltaPct }))
  (cpsAll.mergeSort cpLe).take 10

/-- SegmentDriver (schemas.py); contribution and mean fields are
Option ℚ because a segment whose KPI values are all null in one half
propagates NaN into them. -/
structure SegmentDriver where
  segment_column : String
  segment_value : String
  kpi : String
  contribution_abs : Option ℚ
  contribution_pct : Option ℚ
  segment_mean : Option ℚ
  segment_size : ℕ
deriving DecidableEq

/-- Date-sorted rows of the temporal decomposition (decomposition.py
line 91); a row is (date, segment value, kpi value), nulls are none.
Ties keep input order in the model (pandas leaves their order
unspecified). -/
def temporalSorted (rows : List (ℤ × Option String × Option ℚ)) :
    List (ℤ × Option String × Option ℚ) :=
  rows.mergeSort (fun a b => a.1 ≤ b.1)

/-- The before half: rows up to the median index (decomposition.py
lines 92-94). -/
def temporalBefore (rows : List (ℤ × Option String × Option ℚ)) :
    List (ℤ × Option String × Option ℚ) :=
  (temporalSorted rows).take ((temporalSorted rows).length / 2)

/-- The after half: rows from the median index on. -/
def temporalAfter (rows : List (ℤ × Option String × Option ℚ)) :
    List (ℤ × Option String × Option ℚ) :=
  (temporalSorted rows).drop ((temporalSorted rows).length / 2)

/-- Overall change (decomposition.py lines 98-100): after-half KPI
mean minus before-half KPI mean; none when either mean is NaN. -/
def temporalOverallChange (rows : List (ℤ × Option String × Option ℚ)) : Option ℚ :=
  match meanO ((temporalBefore rows).map (fun r => r.2.2)),
      meanO ((temporalAfter rows).map (fun r => r.2.2)) with
  | some ob, some oa => some (oa - ob)
  | _, _ => none

/-- KPI values of one segment value inside the before half
(decomposition.py line 110; note the source does not drop nulls
here). -/
def segValsBefore (rows : List (ℤ × Option String × Option ℚ)) (v : String) :
    List (Option ℚ) :=
  ((temporalBefore rows).filter (fun r => r.2.1 = some v)).map (fun r => r.2.2)

/-- KPI values of one segment value inside the after half. -/
def segValsAfter (rows : List (ℤ × Option String × Option ℚ)) (v : String) :
    List (Option ℚ) :=
  ((temporalAfter rows).filter (fun r => r.2.1 = some v)).map (fun r => r.2.2)

/-- Unrounded contribution of one segment value (decomposition.py
lines 116-126): segment delta weighted by average segment size over
total rows; NaN when a half has only null KPI values. -/
def temporalContribAbs (rows : List (ℤ × Option String × Option ℚ)) (v : String) :
    Option ℚ :=
  (meanO (segValsBefore rows v)).bind (fun mb =>
    (meanO (segValsAfter rows v)).map (fun ma =>
      (ma - mb) *
        ((((segValsBefore rows v).length : ℚ) + ((segValsAfter rows v).length : ℚ)) / 2
          / (rows.length : ℚ))))

/-- calculate_temporal_contribution (decomposition.py lines 74-141).
The KPI is skipped when the overall delta is 0 or NaN.  Segment values
are scanned in first-appearance order over the unsorted dataframe, as
df[segment_col].unique() yields them, and a value is skipped when it
has no rows in one of the halves. -/
def calculate_temporal_contribution (segmentCol kpi : String)
    (rows : List (ℤ × Option String × Option ℚ)) : List SegmentDriver :=
  match temporalOverallChange rows with
  | none => []
  | some overallChange =>
    if overallChange = 0 then []
    else
      (uniqueInOrder (rows.filterMap (fun r => r.2.1))).filterMap (fun v =>
        if (segValsBefore rows v).length = 0 ∨ (segValsAfter rows v).length = 0 then none
        else
          some
            { segment_column := segmentCol
              segment_value := v
              kpi := kpi
              contribution_abs := (temporalContribAbs rows v).map (fun c => pyRound c 6)
              contribution_pct := (temporalContribAbs rows v).map
                (fun c => pyRound (c / |overallChange| * 100) 2)
              segment_mean := (meanO (segValsAfter rows v)).map (fun m => pyRound m 6)
              segment_size :=
                ((segValsBefore rows v).length + (segValsAfter rows v).length) / 2 })

/-- Anomaly as the decision generator observes it (insights.py line
464): only its severity matters there. -/
structure Anomaly where
  anomaly_type : String
  severity : String
deriving DecidableEq

/-- TrendSummary (schemas.py). -/
structure TrendSummary where
  kpi : String
  direction : String
  overall_change_pct : ℚ
  recent_change_pct : ℚ
deriving DecidableEq

/-- The decision texts generate_decisions can emit (insights.py lines
366-476), abstracted to their kind and referenced names. -/
inductive DecisionKind where
  | shipExperiment (kpi : String)
  | dontShipExperiment (kpi : String)
  | continueExperiment (kpi : String)
  | investigateDecline (kpi : String)
  | focusSegment (col val : String)
  | addressSegment (col val : String)
  | fixDataQuality
deriving DecidableEq

/-- RecommendedDecision (schemas.py) restricted to the fields the
claims observe: the decision, its confidence and supporting metrics. -/
structure RecommendedDecision where
  kind : DecisionKind
  confidence : String
  supporting_metrics : List String
deriving DecidableEq

/-- Confidence ordinal used by the decision sort (insights.py line
479). -/
def confOrd (c : String) : ℕ :=
  if c = "high" then 0 else if c = "medium" then 1 else if c = "low" then 2 else 3

/-- The experiment decision (insights.py lines 366-412): from the
first experiment result only; ship on significant positive uplift,
do not ship on significant non-positive uplift, otherwise continue;
confidence drops to medium when warnings are present. -/
def expDecision (expResults : List ExperimentResult) : List RecommendedDecision :=
  match expResults with
  | [] => []
  | e :: _ =>
    if e.significant then
      if 0 < e.uplift_pct then
        [⟨DecisionKind.shipExperiment e.kpi,
          if e.warnings = [] then "high" else "medium", [e.kpi]⟩]
      else
        [⟨DecisionKind.dontShipExperiment e.kpi,
          if e.warnings = [] then "high" else "medium", [e.kpi]⟩]
    else [⟨DecisionKind.continueExperiment e.kpi, "medium", [e.kpi]⟩]

/-- The trend decision (insights.py lines 414-441): the FIRST trend in
list order with direction "decreasing" and recent change below -10
yields one investigate-decline decision at confidence high. -/
def declineDecision (trends : List TrendSummary) : List RecommendedDecision :=
  match trends.filter
      (fun t => t.direction = "decreasing" ∧ t.recent_change_pct < -10) with
  | [] => []
  | t :: _ => [⟨DecisionKind.investigateDecline t.kpi, "high", [t.kpi]⟩]

/-- The segment decision (insights.py lines 443-461): the first driver
with absolute contribution percent above 40 (NaN compares false). -/
def segDecision (segDrivers : List SegmentDriver) : List RecommendedDecision :=
  match segDrivers.filter
      (fun d => match d.contribution_pct with | some x => 40 < |x| | none => False) with
  | [] => []
  | d :: _ =>
    if (match d.contribution_pct with | some x => decide (0 < x) | none => false) = true then
      [⟨DecisionKind.focusSegment d.segment_column d.segment_value, "high", [d.kpi]⟩]
    else
      [⟨DecisionKind.addressSegment d.segment_column d.segment_value, "high", [d.kpi]⟩]

/-- The data-quality decision (insights.py lines 463-476). -/
def qualityDecision (anomalies : List Anomaly) : List RecommendedDecision :=
  if anomalies.any (fun a => a.severity = "high") then
    [⟨DecisionKind.fixDataQuality, "high", []⟩]
  else []

/-- Comparator of the decision sort (insights.py lines 479-480). -/
def decisionLe (a b : RecommendedDecision) : Bool :=
  confOrd a.confidence ≤ confOrd b.confidence

/-- generate_decisions (insights.py lines 364-482): at most one
decision from each generator, sorted stably by confidence ordinal and
truncated to 5. -/
def generate_decisions (expResults : List ExperimentResult)
    (trends : List TrendSummary) (segDrivers : List SegmentDriver)
    (anomalies : List Anomaly) : List RecommendedDecision :=
  ((expDecision expResults ++ declineDecision trends ++ segDecision segDrivers ++
    qualityDecision anomalies).mergeSort decisionLe).take 5

/-- Keyword tables of detect_kpis (profiling.py lines 150-153). -/
def rateKeywords : List String :=
  ["rate", "conversion", "retention", "pct", "percent", "ratio", "ctr", "cvr"]

/-- Count keyword set of detect_kpis. -/
def countKeywords : List String :=
  ["count", "users", "dau", "mau", "wau", "sessions", "visits", "impressions",
   "clicks", "events"]

/-- Money keyword set of detect_kpis. -/
def moneyKeywords : List String :=
  ["revenue", "arr", "mrr", "ltv", "arpu", "arpdau", "arppu", "price", "cost", "spend"]

/-- Duration keyword set of detect_kpis. -/
def durationKeywords : List String :=
  ["duration", "time", "latency", "ttfb", "load_time", "session_length"]

/-- Primary-KPI keyword set (profiling.py line 214). -/
def primaryKeywords : List String :=
  ["revenue", "conversion", "retention", "dau", "engagement", "gmv"]

/-- Denominator keyword set of the rate-pairing loop (profiling.py
line 207). -/
def denomKeywords : List String := ["total", "visit", "session", "user"]

/-- Any keyword of the set occurs as a substring of the lowercased
column name. -/
def hasAnyKeyword (colLower : String) (kws : List String) : Bool :=
  kws.any (fun k => strContains colLower k)

/-- KPI type and unit classification of detect_kpis (profiling.py
lines 166-189), in the source's branch order: rate, then money, then
duration, then count, then the value-range fallback using the
profile's observed min (default 0) and max (default 2). -/
def classifyKpiType (colLower : String) (minV maxV : Option ℚ) : String × String :=
  if hasAnyKeyword colLower rateKeywords then ("rate", "fraction")
  else if hasAnyKeyword colLower moneyKeywords then ("money", "currency")
  else if hasAnyKeyword colLower durationKeywords then ("duration", "seconds")
  else if hasAnyKeyword colLower countKeywords then ("count", "count")
  else if 0 ≤ minV.getD 0 ∧ maxV.getD 2 ≤ 1 then ("ratio", "fraction")
  else ("count", "count")

/-- Numerator/denominator pairing loop for rate KPIs (profiling.py
lines 195-209): a fold over the dataframe columns carrying the
(numerator, denominator) state, the inner loop being a first-match
search rerun on every outer iteration. -/
def pairFold (dfColumns : List String) (col colLower : String) :
    Option String × Option String :=
  dfColumns.foldl (fun st pn =>
    if pn = col then st
    else
      let num :=
        if strContains colLower "conversion" && strContains (lowerStr pn) "conversion"
        then some pn else st.1
      let den :=
        match dfColumns.find? (fun pd =>
          if pd = col ∨ num = some pd then false
          else hasAnyKeyword (lowerStr pd) denomKeywords) with
        | some pd => some pd
        | none => st.2
      (num, den)) (none, none)

/-- KPIDetection (schemas.py). -/
structure KPIDetection where
  column_name : String
  kpi_type : String
  numerator : Option String
  denominator : Option String
  unit : String
  is_primary : Bool
deriving DecidableEq

/-- The column profile fields detect_kpis reads. -/
structure ColProfile where
  semantic_type : String
  minV : Option ℚ
  maxV : Option ℚ
deriving DecidableEq

/-- Sort key of detect_kpis (profiling.py line 229): primary first,
then column name ascending. -/
def kpiSortLe (a b : KPIDetection) : Bool :=
  if (!a.is_primary) = (!b.is_primary) then decide (a.column_name ≤ b.column_name)
  else !(!a.is_primary)

/-- The loop body of detect_kpis (profiling.py lines 155-226) for one
column profile: none for non-numeric or id-like columns, otherwise the
KPIDetection built from the keyword classification, the rate pairing
and the primary heuristic. -/
def kpiOfProfile (dfColumns : List String) (cp : String × ColProfile) :
    Option KPIDetection :=
  if cp.2.semantic_type ≠ "numeric" then none
  else if endsWithStr cp.1 "_id" ∨ cp.1 = "id" then none
  else
    some
      { column_name := cp.1
        kpi_type := (classifyKpiType (lowerStr cp.1) cp.2.minV cp.2.maxV).1
        numerator :=
          (if (classifyKpiType (lowerStr cp.1) cp.2.minV cp.2.maxV).1 = "rate"
           then pairFold dfColumns cp.1 (lowerStr cp.1) else (none, none)).1
        denominator :=
          (if (classifyKpiType (lowerStr cp.1) cp.2.minV cp.2.maxV).1 = "rate"
           then pairFold dfColumns cp.1 (lowerStr cp.1) else (none, none)).2
        unit := (classifyKpiType (lowerStr cp.1) cp.2.minV cp.2.maxV).2
        is_primary := primaryKeywords.any (fun k => strContains (lowerStr cp.1) k) }

/-- detect_kpis (profiling.py lines 137-231). -/
def detect_kpis (dfColumns : List String)
    (profiles : List (String × ColProfile)) : List KPIDetection :=
  (profiles.filterMap (kpiOfProfile dfColumns)).mergeSort kpiSortLe

/-- KPI classification in the priority order the specification states
(rate, then count, then money, then duration); written from the spec
only, to be contrasted with classifyKpiType taken from the source. -/
def specOrderKpiType (colLower : String) (minV maxV : Option ℚ) : String :=
  if hasAnyKeyword colLower rateKeywords then "rate"
  else if hasAnyKeyword colLower countKeywords then "count"
  else if hasAnyKeyword colLower moneyKeywords then "money"
  else if hasAnyKeyword colLower durationKeywords then "duration"
  else if 0 ≤ minV.getD 0 ∧ maxV.getD 2 ≤ 1 then "ratio"
  else "count"

/-- A pandas frame for the mutation model: named columns of cells. -/
abbrev Frame : Type := List (String × List (Option ℚ))

/-- The heap of live frames; a frame reference is an index into it. -/
abbrev Store : Type := List Frame

/-- Dereference a frame (the empty frame on a dangling reference). -/
def getFrame (s : Store) (r : ℕ) : Frame := s.getD r []

/-- Allocate a fresh frame, returning the extended store and the new
reference. -/
def allocFrame (s : Store) (f : Frame) : Store × ℕ := (s ++ [f], s.length)

/-- Replace or append a column of a frame. -/
def upsertColumn (f : Frame) (name : String) (vals : List (Option ℚ)) : Frame :=
  if f.any (fun c => c.1 = name) then
    f.map (fun c => if c.1 = name then (name, vals) else c)
  else f ++ [(name, vals)]

/-- In-place column assignment, df[name] = vals: mutates the frame the
reference points to. -/
def setColumnFx (s : Store) (r : ℕ) (name : String) (vals : List (Option ℚ)) : Store :=
  s.set r (upsertColumn (getFrame s r) name vals)

/-- df.sort_values(col): allocates a new frame holding a row
permutation of the source (the permutation itself is irrelevant to the
mutation model), leaving the source untouched. -/
def sortValuesFx (s : Store) (r : ℕ) : Store × ℕ := allocFrame s (getFrame s r)

/-- df.copy(): allocates an independent copy. -/
def copyFx (s : Store) (r : ℕ) : Store × ℕ := allocFrame s (getFrame s r)

/-- Frame effects of analyze_trends (analysis_trends.py line 26):
df.sort_values(date_col).copy(); all later accesses are reads. -/
def analyze_trends_frameFx (s : Store) (df : ℕ) : Store :=
  let s1t := sortValuesFx s df
  (copyFx s1t.1 s1t.2).1

/-- Frame effects of detect_change_points (analysis_trends.py line
164): the same sort-then-copy, then reads only. -/
def detect_change_points_frameFx (s : Store) (df : ℕ) : Store :=
  let s1t := sortValuesFx s df
  (copyFx s1t.1 s1t.2).1

/-- Frame effects of analyze_experiment (analysis_experiments.py):
boolean-mask selections and reductions only, no writes. -/
def analyze_experiment_frameFx (s : Store) (df : ℕ) : Store :=
  let _ := getFrame s df
  s

/-- Frame effects of detect_peeking_risk (analysis_experiments.py
lines 273-276): df_copy = df.copy(), then the day_of_week column is
assigned on the copy.  dow stands for the weekday values computed from
the date column. -/
def detect_peeking_risk_frameFx (s : Store) (df : ℕ)
    (dow : List (Option ℚ)) : Store :=
  let s1c := copyFx s df
  setColumnFx s1c.1 s1c.2 "day_of_week" dow

/-- Frame effects of analyze_segment_drivers with a date column
(decomposition.py line 91): df.sort_values(date_col) allocates; all
later accesses are reads. -/
def analyze_segment_drivers_frameFx (s : Store) (df : ℕ) : Store :=
  (sortValuesFx s df).1

/-! Helper lemmas. -/

/-- Membership transport through mapMO. -/
theorem mapMO_mem {α β : Type} {f : α → Option β} {l : List α} {l2 : List β}
    (h : mapMO f l = some l2) {b : β} (hb : b ∈ l2) : ∃ a ∈ l, f a = some b := by
  induction l generalizing l2 with
  | nil =>
    simp only [mapMO, Option.some.injEq] at h
    subst h
    simp at hb
  | cons a as ih =>
    rw [mapMO] at h
    cases hfa : f a with
    | none => rw [hfa] at h; exact absurd h (by simp)
    | some b0 =>
      cases hrec : mapMO f as with
      | none => rw [hfa, hrec] at h; exact absurd h (by simp)
      | some bs =>
        rw [hfa, hrec] at h
        simp only [Option.some.injEq] at h
        subst h
        rcases List.mem_cons.mp hb with rfl | hb
        · exact ⟨a, List.mem_cons_self a as, hfa⟩
        · obtain ⟨a1, ha1, hfa1⟩ := ih hrec hb
          exact ⟨a1, List.mem_cons_of_mem a ha1, hfa1⟩

/-- A successful find? splits the list at the first match. -/
theorem find?_first {α : Type} {p : α → Bool} {l : List α} {v : α}
    (h : l.find? p = some v) :
    ∃ pre post, l = pre ++ v :: post ∧ ∀ u ∈ pre, p u = false := by
  induction l with
  | nil => simp at h
  | cons a as ih =>
    cases hp : p a with
    | true =>
      rw [List.find?_cons_of_pos _ hp] at h
      obtain rfl : a = v := by injection h
      exact ⟨[], as, rfl, by simp⟩
    | false =>
      rw [List.find?_cons_of_neg _ (by simp [hp])] at h
      obtain ⟨pre, post, rfl, hpre⟩ := ih h
      refine ⟨a :: pre, post, rfl, ?_⟩
      intro u hu
      rcases List.mem_cons.mp hu with rfl | hu
      · exact hp
      · exact hpre u hu

/-- Upper bound of the half-even integer rounding. -/
theorem pyRoundInt_le (y : ℚ) : (pyRoundInt y : ℚ) ≤ y + 1 / 2 := by
  have h0 : ((⌊y⌋ : ℤ) : ℚ) ≤ y := Int.floor_le y
  have h1 : y - 1 < ((⌊y⌋ : ℤ) : ℚ) := Int.sub_one_lt_floor y
  unfold pyRoundInt
  split_ifs <;> push_cast <;> linarith

/-- Lower bound of the half-even integer rounding. -/
theorem pyRoundInt_ge (y : ℚ) : y - 1 / 2 ≤ (pyRoundInt y : ℚ) := by
  have h0 : ((⌊y⌋ : ℤ) : ℚ) ≤ y := Int.floor_le y
  have h1 : y - 1 < ((⌊y⌋ : ℤ) : ℚ) := Int.sub_one_lt_floor y
  unfold pyRoundInt
  split_ifs <;> push_cast <;> linarith

/-- A magnitude of at least 10 survives rounding at two decimals. -/
theorem abs_pyRound_two_ge {x : ℚ} (h : 10 ≤ |x|) : 10 ≤ |pyRound x 2| := by
  have hv : pyRound x 2 = (pyRoundInt (x * 100) : ℚ) / 100 := by
    unfold pyRound
    norm_num
  rcases abs_cases x with ⟨hx, hx0⟩ | ⟨hx, hx0⟩
  · have hx10 : (10 : ℚ) ≤ x := hx ▸ h
    have hr : (999 : ℚ) < (pyRoundInt (x * 100) : ℚ) := by
      have := pyRoundInt_ge (x * 100)
      linarith
    have hrz : (999 : ℤ) < pyRoundInt (x * 100) := by exact_mod_cast hr
    have hrz2 : (1000 : ℤ) ≤ pyRoundInt (x * 100) := hrz
    have : (10 : ℚ) ≤ pyRound x 2 := by
      rw [hv]
      have : (1000 : ℚ) ≤ (pyRoundInt (x * 100) : ℚ) := by exact_mod_cast hrz2
      linarith
    exact le_trans this (le_abs_self _)
  · have hx10 : x ≤ (-10 : ℚ) := by linarith
    have hr : (pyRoundInt (x * 100) : ℚ) < -999 := by
      have := pyRoundInt_le (x * 100)
      linarith
    have hrz : pyRoundInt (x * 100) < (-999 : ℤ) := by exact_mod_cast hr
    have hrz2 : pyRoundInt (x * 100) ≤ (-1000 : ℤ) := by omega
    have hle : pyRound x 2 ≤ (-10 : ℚ) := by
      rw [hv]
      have : (pyRoundInt (x * 100) : ℚ) ≤ (-1000 : ℚ) := by exact_mod_cast hrz2
      linarith
    calc (10 : ℚ) ≤ -pyRound x 2 := by linarith
    _ ≤ |pyRound x 2| := neg_le_abs _

/-! Claim theorems. -/

/-- C10: when the variant column holds fewer than two distinct
non-null values, analyze_experiment returns the empty result list and
no error: the call evaluates to some []. -/
theorem claim_C10_early_return (sqrtFn : ℚ → ℚ)
    (pOf : List ℚ → List ℚ → Option ℚ)
    (drawsOf : String → String → List (List ℚ × List ℚ))
    (expCol : List (Option String)) (columns : List (String × List (Option ℚ)))
    (kpiColumns : List String) (alpha : ℚ)
    (h : (uniqueInOrder (expCol.filterMap id)).length < 2) :
    analyze_experiment sqrtFn pOf drawsOf expCol columns kpiColumns alpha = some [] := by
  unfold analyze_experiment
  simp [h]

/-- C10 witness: a column with a single distinct non-null variant. -/
theorem claim_C10_witness :
    (uniqueInOrder (([some "x", none, some "x"] : List (Option String)).filterMap id)).length < 2 ∧
    analyze_experiment (fun _ => 0) (fun _ _ => none) (fun _ _ => [])
      [some "x", none, some "x"] [("m", [some 1, some 2, some 3])] ["m"] (1 / 20) = some [] :=
  ⟨by decide, claim_C10_early_return _ _ _ _ _ _ _ (by decide)⟩

/-- C4 counterexample: the claim predicts that a variant list
containing the label "control" always selects that label (keyword
order first); the source scans variants in list order with substring
matching, so ["baseline", "control"] selects "baseline". -/
theorem claim_C4_counterexample :
    identify_control_variant ["baseline", "control"] = "baseline" ∧
    ("baseline" : String) ≠ "control" := by
  constructor
  · decide
  · decide

/-- C4 as amended: on any variant list, identify_control_variant
returns the first variant in list order whose lowercased label
contains one of the keywords control, baseline, original, "a" as a
substring (every earlier variant matching none); only when no label
contains any keyword does it fall back to the first variant; and when
a label equal to "control" occurs somewhere in the list the selected
control is such a keyword-matching label, though not necessarily the
"control" label itself. -/
theorem claim_C4_first_matching_variant (variants : List String) :
    ((∃ u ∈ variants, matchesControlKeyword u = true) →
      matchesControlKeyword (identify_control_variant variants) = true ∧
      ∃ pre post, variants = pre ++ identify_control_variant variants :: post ∧
        ∀ u ∈ pre, matchesControlKeyword u = false) ∧
    ((∀ u ∈ variants, matchesControlKeyword u = false) →
      identify_control_variant variants = variants.headD "") ∧
    ("control" ∈ variants →
      matchesControlKeyword (identify_control_variant variants) = true) := by
  have hmatch : (∃ u ∈ variants, matchesControlKeyword u = true) →
      matchesControlKeyword (identify_control_variant variants) = true ∧
      ∃ pre post, variants = pre ++ identify_control_variant variants :: post ∧
        ∀ u ∈ pre, matchesControlKeyword u = false := by
    intro h
    have hsome : (variants.find? matchesControlKeyword).isSome = true := by
      rw [List.find?_isSome]
      exact h
    obtain ⟨v, hv⟩ := Option.isSome_iff_exists.mp hsome
    have hid : identify_control_variant variants = v := by
      unfold identify_control_variant
      rw [hv]
    rw [hid]
    exact ⟨List.find?_some hv, find?_first hv⟩
  refine ⟨hmatch, ?_, ?_⟩
  · intro h
    have hnone : variants.find? matchesControlKeyword = none := by
      rw [List.find?_eq_none]
      intro u hu
      simp [h u hu]
    unfold identify_control_variant
    rw [hnone]
  · intro h
    exact (hmatch ⟨"control", h, by decide⟩).1

/-- C4 witness: in ["x", "control"] the selected control matches a
keyword and splits the list after the non-matching "x"; in ["x", "y"],
where no label contains a keyword, the first variant is returned. -/
theorem claim_C4_witness :
    (matchesControlKeyword (identify_control_variant ["x", "control"]) = true ∧
      ∃ pre post, (["x", "control"] : List String) =
          pre ++ identify_control_variant ["x", "control"] :: post ∧
        ∀ u ∈ pre, matchesControlKeyword u = false) ∧
    identify_control_variant ["x", "y"] = (["x", "y"] : List String).headD "" ∧
    matchesControlKeyword (identify_control_variant ["x", "control"]) = true :=
  ⟨(claim_C4_first_matching_variant ["x", "control"]).1 ⟨"control", by decide, by decide⟩,
   (claim_C4_first_matching_variant ["x", "y"]).2.1 (by decide),
   (claim_C4_first_matching_variant ["x", "control"]).2.2 (by decide)⟩

/-- C3: whenever the stdev of period-over-period relative changes
times 100 exceeds 20, determine_direction answers "volatile" whatever
the overall and recent changes are; and when it does not, the answer
is exactly the ±5 threshold cascade on recent and overall change. -/
theorem claim_C3_volatility_priority (sqrtFn : ℚ → ℚ) (overall recent : ℚ)
    (series : List ℚ) :
    (FVal.gt (volatilityOf sqrtFn series) (FVal.fin 20) = true →
      determine_direction sqrtFn overall recent series = "volatile") ∧
    (FVal.gt (volatilityOf sqrtFn series) (FVal.fin 20) = false →
      determine_direction sqrtFn overall recent series =
        if |overall| < 5 ∧ |recent| < 5 then "stable"
        else if 5 < recent then "increasing"
        else if recent < -5 then "decreasing"
        else if 5 < overall then "increasing"
        else if overall < -5 then "decreasing"
        else "stable") := by
  constructor <;> intro h <;> simp only [determine_direction, h] <;> simp

/-- C3 witness: a high-volatility series is classified volatile even
with flat changes, and a calm series follows the threshold cascade. -/
theorem claim_C3_witness :
    determine_direction (fun _ => 1) 0 0 [1, 2, 1, 2] = "volatile" ∧
    determine_direction (fun _ => 0) 6 0 [1, 2, 1, 2] = "increasing" := by
  have hvol1 : FVal.gt (volatilityOf (fun _ => 1) [1, 2, 1, 2]) (FVal.fin 20) = true := by
    norm_num [volatilityOf, pctChanges, dropNaF, isNaF, stdF, finValsOf, mapMO, List.zip,
      List.zipWith, sampleVar, meanQ, sumQ, FVal.mulQ, FVal.gt, FVal.lt]
  have hvol0 : FVal.gt (volatilityOf (fun _ => 0) [1, 2, 1, 2]) (FVal.fin 20) = false := by
    norm_num [volatilityOf, pctChanges, dropNaF, isNaF, stdF, finValsOf, mapMO, List.zip,
      List.zipWith, sampleVar, meanQ, sumQ, FVal.mulQ, FVal.gt, FVal.lt]
  refine ⟨(claim_C3_volatility_priority (fun _ => 1) 0 0 [1, 2, 1, 2]).1 hvol1, ?_⟩
  have h := (claim_C3_volatility_priority (fun _ => 0) 6 0 [1, 2, 1, 2]).2 hvol0
  rw [h]
  norm_num

/-- Sum of an all-zero list. -/
theorem sumQ_eq_zero {xs : List ℚ} (h : ∀ x ∈ xs, x = 0) : sumQ xs = 0 := by
  induction xs with
  | nil => rfl
  | cons a as ih =>
    have ha : a = 0 := h a (List.mem_cons_self a as)
    have : sumQ as = 0 := ih (fun x hx => h x (List.mem_cons_of_mem a hx))
    simp [sumQ] at this ⊢
    simp [ha, this]

/-- C2 counterexample: the coefficient of variation computed by
determine_changepoint_confidence on a window with zero mean is 1, not
the 0 the claim states. -/
theorem claim_C2_counterexample :
    seriesCv (fun _ => 0) [(-1 : ℚ), 1] = some 1 ∧ (1 : ℚ) ≠ 0 := by
  constructor
  · norm_num [seriesCv, meanQ, sumQ]
  · norm_num

/-- C2 as amended: uplift percent and change-point percent delta with
a zero denominator are defined as 0; the coefficient of variation of
a zero-mean window is defined as 1; the warning checks divide without
a zero guard, so a zero mean under a positive stdev yields +infinity
and the high-variance warning fires without raising; and when the
control arm is identically zero every bootstrap resample is discarded,
the percentile computation fails (none), and the per-pair experiment
analysis aborts instead of emitting a result. -/
theorem claim_C2_zero_denominators :
    (∀ u : ℚ, upliftPctOf u 0 = 0) ∧
    (∀ d : ℚ, deltaPctOf d 0 = 0) ∧
    (∀ sqrtFn : ℚ → ℚ, ∀ xs : List ℚ, xs ≠ [] → meanQ xs = 0 →
      seriesCv sqrtFn xs = some 1) ∧
    (∀ s : ℚ, 0 < s → FVal.div (FVal.fin s) (FVal.fin 0) = FVal.pinf) ∧
    (∀ cc tc : ℕ, ∀ ts : Option ℚ, ∀ tm s : ℚ, 0 < s →
      ExpWarning.highVariance ∈ generate_experiment_warnings cc tc (some s) ts 0 tm) ∧
    (∀ control : List ℚ, ∀ draws : List (List ℚ × List ℚ),
      (∀ x ∈ control, x = (0 : ℚ)) →
      (∀ dr ∈ draws, ∀ x ∈ dr.1, x ∈ control) →
      bootstrap_ci draws (95 / 100) = none) ∧
    (∀ sqrtFn : ℚ → ℚ, ∀ p : Option ℚ,
      ∀ draws : List (List ℚ × List ℚ), ∀ alpha : ℚ, ∀ kpi : String,
      ∀ controlData testData : List ℚ,
      bootstrap_ci draws (95 / 100) = none →
      analyzePair sqrtFn p draws alpha kpi controlData testData = none) := by
  refine ⟨?_, ?_, ?_, ?_, ?_, ?_, ?_⟩
  · intro u
    simp [upliftPctOf]
  · intro d
    simp [deltaPctOf]
  · intro sq xs hne hm
    have hempty : xs.isEmpty = false := by
      cases xs with
      | nil => exact absurd rfl hne
      | cons a as => rfl
    simp [seriesCv, hempty, hm]
  · intro s hs
    simp [FVal.div, hs.ne', hs]
  · intro cc tc ts tm s hs
    have hdiv : FVal.div (ofOpt (some s)) (FVal.fin 0) = FVal.pinf := by
      simp [ofOpt, FVal.div, hs.ne', hs]
    simp only [generate_experiment_warnings, hdiv]
    have hgt : FVal.gt FVal.pinf (FVal.fin 1) = true := rfl
    simp only [hgt, Bool.true_or, if_pos]
    simp
  · intro control draws hzero hsub
    have huplift : bootstrapUplifts draws = [] := by
      unfold bootstrapUplifts
      rw [List.filterMap_eq_nil_iff]
      intro dr hdr
      have hm : meanQ dr.1 = 0 := by
        have : sumQ dr.1 = 0 := sumQ_eq_zero (fun x hx => hzero x (hsub dr hdr x hx))
        simp [meanQ, this]
      simp [hm]
    simp [bootstrap_ci, huplift, percentileO]
  · intro sq p draws alpha kpi cd td h
    simp [analyzePair, h]

/-- C2 witness: concrete instances of every amended conjunct. -/
theorem claim_C2_witness :
    upliftPctOf 5 0 = 0 ∧ deltaPctOf 3 0 = 0 ∧
    seriesCv (fun _ => 9) [(-2 : ℚ), 2] = some 1 ∧
    FVal.div (FVal.fin 2) (FVal.fin 0) = FVal.pinf ∧
    ExpWarning.highVariance ∈ generate_experiment_warnings 200 300 (some 1) (some 1) 0 1 ∧
    bootstrap_ci [([(0 : ℚ), 0], [(1 : ℚ), 2])] (95 / 100) = none ∧
    analyzePair (fun _ => 0) (some (1 / 100)) [([(0 : ℚ), 0], [(1 : ℚ), 2])]
      (1 / 20) "m" [0, 0] [1, 2] = none :=
  ⟨claim_C2_zero_denominators.1 5,
   claim_C2_zero_denominators.2.1 3,
   claim_C2_zero_denominators.2.2.1 (fun _ => 9) [(-2 : ℚ), 2] (by simp)
     (by norm_num [meanQ, sumQ]),
   claim_C2_zero_denominators.2.2.2.1 2 (by decide),
   claim_C2_zero_denominators.2.2.2.2.1 200 300 (some 1) 1 1 (by decide),
   claim_C2_zero_denominators.2.2.2.2.2.1 [0, 0] _ (by decide) (by decide),
   claim_C2_zero_denominators.2.2.2.2.2.2 (fun _ => 0) (some (1 / 100)) _ (1 / 20) "m"
     [0, 0] [1, 2]
     (claim_C2_zero_denominators.2.2.2.2.2.1 [0, 0] _ (by decide) (by decide))⟩

/-- C1: every result analyze_experiment emits with significant = true
was built from an unrounded p-value below alpha and unrounded
bootstrap CI bounds of the same sign (the interval excludes zero);
the stored p_value and ci fields are the rounded images of those
values. -/
theorem claim_C1_significant_implies (sqrtFn : ℚ → ℚ)
    (pOf : List ℚ → List ℚ → Option ℚ)
    (drawsOf : String → String → List (List ℚ × List ℚ))
    (expCol : List (Option String)) (columns : List (String × List (Option ℚ)))
    (kpiColumns : List String) (alpha : ℚ) (results : List ExperimentResult)
    (r : ExperimentResult)
    (hres : analyze_experiment sqrtFn pOf drawsOf expCol columns kpiColumns alpha
      = some results)
    (hr : r ∈ results) (hsig : r.significant = true) :
    ∃ pv ciL ciU : ℚ,
      r.p_value = some (pyRound pv 4) ∧
      r.ci_lower = pyRound ciL 2 ∧ r.ci_upper = pyRound ciU 2 ∧
      pv < alpha ∧ 0 < ciL * ciU ∧
      ((0 < ciL ∧ 0 < ciU) ∨ (ciL < 0 ∧ ciU < 0)) := by
  by_cases hv : (uniqueInOrder (expCol.filterMap id)).length < 2
  · simp only [analyze_experiment, if_pos hv, Option.some.injEq] at hres
    subst hres
    simp at hr
  · simp only [analyze_experiment, if_neg hv] at hres
    rw [Option.map_eq_some'] at hres
    obtain ⟨l, hl, hres2⟩ := hres
    subst hres2
    obtain ⟨o, ho, hoid⟩ := List.mem_filterMap.mp hr
    simp only [id] at hoid
    subst hoid
    obtain ⟨kv, _, hfkv⟩ := mapMO_mem hl ho
    by_cases hskip : (selectRows expCol kv.2.1
        (identify_control_variant (uniqueInOrder (expCol.filterMap id)))).length = 0 ∨
        (selectRows expCol kv.2.1 kv.2.2).length = 0
    · rw [if_pos hskip] at hfkv
      simp at hfkv
    · rw [if_neg hskip] at hfkv
      rw [Option.map_eq_some'] at hfkv
      obtain ⟨r0, hr0, hr0eq⟩ := hfkv
      obtain rfl : r0 = r := by injection hr0eq
      cases hci : bootstrap_ci (drawsOf kv.1 kv.2.2) (95 / 100) with
      | none =>
        unfold analyzePair at hr0
        rw [hci] at hr0
        simp at hr0
      | some ci =>
        obtain ⟨ciL, ciU⟩ := ci
        unfold analyzePair at hr0
        rw [hci] at hr0
        simp only [Option.some.injEq] at hr0
        subst hr0
        simp only [significanceRule] at hsig
        cases hp : pOf (selectRows expCol kv.2.1 kv.2.2)
            (selectRows expCol kv.2.1
              (identify_control_variant (uniqueInOrder (expCol.filterMap id)))) with
        | none =>
          rw [hp] at hsig
          simp at hsig
        | some pv =>
          rw [hp] at hsig
          simp only [Bool.and_eq_true, decide_eq_true_eq] at hsig
          refine ⟨pv, ciL, ciU, ?_, rfl, rfl, hsig.1, hsig.2, ?_⟩
          · simp [hp]
          · exact mul_pos_iff.mp hsig.2
/-- Helper: np.percentile of a one-element array is that element. -/
theorem percentileO_singleton (x q : ℚ) : percentileO [x] q = some x := by
  simp only [percentileO, List.mergeSort_singleton]
  norm_num

/-- C1 witness: a two-variant dataframe whose single (KPI, variant)
pair comes out significant, with p-value 1/100 below alpha = 1/20 and
a bootstrap CI of (100, 100) excluding zero. -/
theorem claim_C1_witness :
    analyze_experiment (fun _ => 0) (fun _ _ => some (1 / 100))
      (fun _ _ => [([(1 : ℚ)], [(2 : ℚ)])])
      [some "control", some "b"] [("m", [some 1, some 2])] ["m"] (1 / 20)
      = some [{ kpi := "m", control_mean := 1, test_mean := 2, control_std := none,
                test_std := none, control_count := 1, test_count := 1, uplift_abs := 1,
                uplift_pct := 100, ci_lower := 100, ci_upper := 100,
                p_value := some (1 / 100), significant := true,
                warnings := [ExpWarning.smallSample] }] ∧
    (∃ pv ciL ciU : ℚ,
      (some (1 / 100) : Option ℚ) = some (pyRound pv 4) ∧
      (100 : ℚ) = pyRound ciL 2 ∧ (100 : ℚ) = pyRound ciU 2 ∧
      pv < 1 / 20 ∧ 0 < ciL * ciU ∧
      ((0 < ciL ∧ 0 < ciU) ∨ (ciL < 0 ∧ ciU < 0))) := by
  have hci : bootstrap_ci [([(1 : ℚ)], [(2 : ℚ)])] (95 / 100) = some (100, 100) := by
    have hu : bootstrapUplifts [([(1 : ℚ)], [(2 : ℚ)])] = [100] := by
      norm_num [bootstrapUplifts, meanQ, sumQ, List.filterMap_cons, List.filterMap_nil]
    simp only [bootstrap_ci, hu, percentileO_singleton]
  have hpair : analyzePair (fun _ => (0 : ℚ)) (some (1 / 100)) [([(1 : ℚ)], [(2 : ℚ)])]
      (1 / 20) "m" [1] [2]
      = some { kpi := "m", control_mean := 1, test_mean := 2, control_std := none,
               test_std := none, control_count := 1, test_count := 1, uplift_abs := 1,
               uplift_pct := 100, ci_lower := 100, ci_upper := 100,
               p_value := some (1 / 100), significant := true,
               warnings := [ExpWarning.smallSample] } := by
    simp only [analyzePair, hci]
    norm_num [meanQ, sumQ, stdO, upliftPctOf, significanceRule, generate_experiment_warnings,
      ofOpt, FVal.div, FVal.gt, FVal.lt, pyMax, pyMin, pyRound, pyRoundInt]
  have hvar : uniqueInOrder (([some "control", some "b"] : List (Option String)).filterMap id)
      = ["control", "b"] := by decide
  have hctl : identify_control_variant ["control", "b"] = "control" := by decide
  have hsel1 : selectRows [some "control", some "b"] [some 1, some 2] "control" = [1] := by decide
  have hsel2 : selectRows [some "control", some "b"] [some 1, some 2] "b" = [2] := by decide
  have hres : analyze_experiment (fun _ => 0) (fun _ _ => some (1 / 100))
      (fun _ _ => [([(1 : ℚ)], [(2 : ℚ)])])
      [some "control", some "b"] [("m", [some 1, some 2])] ["m"] (1 / 20)
      = some [{ kpi := "m", control_mean := 1, test_mean := 2, control_std := none,
                test_std := none, control_count := 1, test_count := 1, uplift_abs := 1,
                uplift_pct := 100, ci_lower := 100, ci_upper := 100,
                p_value := some (1 / 100), significant := true,
                warnings := [ExpWarning.smallSample] }] := by
    simp only [analyze_experiment, hvar, hctl]
    norm_num [mapMO, hsel1, hsel2, hpair, List.filterMap_cons, List.filterMap_nil]
  refine ⟨hres, ?_⟩
  exact claim_C1_significant_implies (fun _ => 0) (fun _ _ => some (1 / 100))
    (fun _ _ => [([(1 : ℚ)], [(2 : ℚ)])])
    [some "control", some "b"] [("m", [some 1, some 2])] ["m"] (1 / 20)
    [{ kpi := "m", control_mean := 1, test_mean := 2, control_std := none,
       test_std := none, control_count := 1, test_count := 1, uplift_abs := 1,
       uplift_pct := 100, ci_lower := 100, ci_upper := 100,
       p_value := some (1 / 100), significant := true,
       warnings := [ExpWarning.smallSample] }]
    { kpi := "m", control_mean := 1, test_mean := 2, control_std := none,
      test_std := none, control_count := 1, test_count := 1, uplift_abs := 1,
      uplift_pct := 100, ci_lower := 100, ci_upper := 100,
      p_value := some (1 / 100), significant := true,
      warnings := [ExpWarning.smallSample] }
    hres (by simp) rfl

/-- The change-point comparator is transitive. -/
theorem cpLe_trans : ∀ a b c : ChangePoint,
    cpLe a b = true → cpLe b c = true → cpLe a c = true := by
  intro a b c hab hbc
  simp only [cpLe, decide_eq_true_eq] at hab hbc ⊢
  exact le_trans hbc hab

/-- The change-point comparator is total. -/
theorem cpLe_total : ∀ a b : ChangePoint, (cpLe a b || cpLe b a) = true := by
  intro a b
  simp only [cpLe, Bool.or_eq_true, decide_eq_true_eq]
  exact le_total _ _

/-- C6: every returned change point carries an absolute percent delta
of at least 10, the merged list is sorted by absolute percent delta
descending, and at most 10 entries are returned. -/
theorem claim_C6_changepoint_output (sqrtFn : ℚ → ℚ)
    (kpiData : List (String × List (ℤ × Option ℚ))) (minSize : ℕ) :
    (∀ cp ∈ detect_change_points sqrtFn kpiData minSize, 10 ≤ |cp.delta_pct|) ∧
    List.Sorted (fun a b => |b.delta_pct| ≤ |a.delta_pct|)
      (detect_change_points sqrtFn kpiData minSize) ∧
    (detect_change_points sqrtFn kpiData minSize).length ≤ 10 := by
  refine ⟨?_, ?_, ?_⟩
  · intro cp hcp
    simp only [detect_change_points] at hcp
    have h2 := List.mem_mergeSort.mp (List.take_subset 10 _ hcp)
    obtain ⟨kd, _, hcp2⟩ := List.mem_flatMap.mp h2
    by_cases hlen : (groupbyMeanDropna kd.2).length < minSize * 2
    · rw [if_pos hlen] at hcp2
      simp at hcp2
    · rw [if_neg hlen] at hcp2
      obtain ⟨cpIdx, _, hf⟩ := List.mem_filterMap.mp hcp2
      split_ifs at hf with h1 h2 h3
      all_goals cases hf
      all_goals exact abs_pyRound_two_ge (not_lt.mp h3)
  · simp only [detect_change_points]
    exact List.Pairwise.sublist (List.take_sublist 10 _)
      (List.Pairwise.imp (fun h => by simpa [cpLe] using h)
        (List.sorted_mergeSort cpLe_trans cpLe_total _))
  · simp only [detect_change_points]
    exact List.length_take_le 10 _

/-- C6 witness: a three-day series with a level jump produces exactly
one change point, of percent delta 900, and the returned list obeys
the magnitude, sort and truncation properties. -/
theorem claim_C6_witness :
    10 ≤ |(⟨1, "k", 1, 10, 9, 900, "medium"⟩ : ChangePoint).delta_pct| ∧
    List.Sorted (fun a b : ChangePoint => |b.delta_pct| ≤ |a.delta_pct|)
      (detect_change_points (fun _ => 1)
        [("k", [((0 : ℤ), some (1 : ℚ)), (1, some 10), (2, some 10)])] 1) ∧
    (detect_change_points (fun _ => 1)
      [("k", [((0 : ℤ), some (1 : ℚ)), (1, some 10), (2, some 10)])] 1).length ≤ 10 := by
  have hdaily : groupbyMeanDropna [((0 : ℤ), some (1 : ℚ)), (1, some 10), (2, some 10)]
      = [(0, 1), (1, 10), (2, 10)] := by
    have h1 : uniqueInOrder ([0, 1, 2] : List ℤ) = [0, 1, 2] := by decide
    have h2 : (([0, 1, 2] : List ℤ).mergeSort (fun a b => a ≤ b)) = [0, 1, 2] :=
      List.mergeSort_of_sorted (by decide)
    norm_num [groupbyMeanDropna, h1, h2, meanO, meanQ, sumQ, List.filter_cons,
      List.filter_nil, List.filterMap_cons, List.filterMap_nil]
  have hsimple : detect_change_points_simple (fun _ => 1) [(1 : ℚ), 10, 10] 1 = [1] := by
    norm_num [detect_change_points_simple, List.range', meanQ, sumQ, stdPop, popVar,
      List.foldl_cons, List.foldl_nil]
  have hdet : detect_change_points (fun _ => 1)
      [("k", [((0 : ℤ), some (1 : ℚ)), (1, some 10), (2, some 10)])] 1
      = [⟨1, "k", 1, 10, 9, 900, "medium"⟩] := by
    have hconf : determine_changepoint_confidence (fun _ => 1) [(1 : ℚ)] [(10 : ℚ)] 900
        = "medium" := by
      norm_num [determine_changepoint_confidence, seriesCv, stdO, ofOpt, FVal.lt,
        meanQ, sumQ]
    have hpr1 : pyRound (1 : ℚ) 4 = 1 := by norm_num [pyRound, pyRoundInt]
    have hpr2 : pyRound (10 : ℚ) 4 = 10 := by norm_num [pyRound, pyRoundInt]
    have hpr3 : pyRound (9 : ℚ) 4 = 9 := by norm_num [pyRound, pyRoundInt]
    have hpr4 : pyRound (900 : ℚ) 2 = 900 := by norm_num [pyRound, pyRoundInt]
    simp only [detect_change_points, List.flatMap_cons, List.flatMap_nil, hdaily]
    norm_num [hsimple, List.filterMap_cons, List.filterMap_nil, meanQ, sumQ, deltaPctOf,
      hconf, hpr1, hpr2, hpr3, hpr4, List.mergeSort_singleton, List.getD]
  refine ⟨?_, ?_, ?_⟩
  · exact (claim_C6_changepoint_output (fun _ => 1)
      [("k", [((0 : ℤ), some (1 : ℚ)), (1, some 10), (2, some 10)])] 1).1 _
      (by rw [hdet]; exact List.mem_singleton.mpr rfl)
  · exact (claim_C6_changepoint_output (fun _ => 1)
      [("k", [((0 : ℤ), some (1 : ℚ)), (1, some 10), (2, some 10)])] 1).2.1
  · exact (claim_C6_changepoint_output (fun _ => 1)
      [("k", [((0 : ℤ), some (1 : ℚ)), (1, some 10), (2, some 10)])] 1).2.2

/-- C7: the temporal decomposition emits nothing when the overall
before/after delta is NaN or 0; and every emitted driver belongs to a
segment value with rows in both halves and carries exactly the claimed
contribution formulas — in particular, when both halves hold non-null
KPI data for the value, contribution_abs is (after mean - before mean)
times (average half count / total rows), and contribution_pct divides
it by the absolute overall delta times 100. -/
theorem claim_C7_temporal_contribution (segmentCol kpi : String)
    (rows : List (ℤ × Option String × Option ℚ)) :
    ((temporalOverallChange rows = none ∨ temporalOverallChange rows = some 0) →
      calculate_temporal_contribution segmentCol kpi rows = []) ∧
    (∀ d ∈ calculate_temporal_contribution segmentCol kpi rows,
      ∃ v Δ, temporalOverallChange rows = some Δ ∧ Δ ≠ 0 ∧
        (segValsBefore rows v).length ≠ 0 ∧ (segValsAfter rows v).length ≠ 0 ∧
        d.segment_column = segmentCol ∧ d.segment_value = v ∧ d.kpi = kpi ∧
        d.contribution_abs = (temporalContribAbs rows v).map (fun c => pyRound c 6) ∧
        d.contribution_pct = (temporalContribAbs rows v).map
          (fun c => pyRound (c / |Δ| * 100) 2) ∧
        d.segment_size = ((segValsBefore rows v).length + (segValsAfter rows v).length) / 2 ∧
        (∀ mb ma, meanO (segValsBefore rows v) = some mb →
          meanO (segValsAfter rows v) = some ma →
          temporalContribAbs rows v =
            some ((ma - mb) *
              ((((segValsBefore rows v).length : ℚ) + ((segValsAfter rows v).length : ℚ)) / 2
                / (rows.length : ℚ))))) := by
  constructor
  · intro h
    cases hoc : temporalOverallChange rows with
    | none => simp [calculate_temporal_contribution, hoc]
    | some q =>
      rcases h with h | h
      · rw [hoc] at h
        exact absurd h (by simp)
      · rw [hoc] at h
        have hq0 : q = 0 := Option.some.inj h
        subst hq0
        simp [calculate_temporal_contribution, hoc]
  · intro d hd
    cases hoc : temporalOverallChange rows with
    | none =>
      simp [calculate_temporal_contribution, hoc] at hd
    | some q =>
      simp only [calculate_temporal_contribution, hoc] at hd
      by_cases hq : q = 0
      · rw [if_pos hq] at hd
        simp at hd
      · rw [if_neg hq] at hd
        obtain ⟨v, _, hf⟩ := List.mem_filterMap.mp hd
        split_ifs at hf with hskip
        all_goals cases hf
        refine ⟨v, q, rfl, hq, (not_or.mp hskip).1, (not_or.mp hskip).2,
          rfl, rfl, rfl, rfl, rfl, rfl, ?_⟩
        intro mb ma hmb hma
        rw [temporalContribAbs, hmb, hma]
        rfl

/-- C7 witness: an empty frame is skipped (undefined delta), and a
two-row frame with one segment value yields the claimed contribution
fields: contribution_abs 1, contribution_pct 50. -/
theorem claim_C7_witness :
    calculate_temporal_contribution "g" "m" ([] : List (ℤ × Option String × Option ℚ)) = [] ∧
    (∃ v Δ, temporalOverallChange
        [((0 : ℤ), some "s", some (1 : ℚ)), ((1 : ℤ), some "s", some (3 : ℚ))] = some Δ ∧
      Δ ≠ 0 ∧
      (segValsBefore [((0 : ℤ), some "s", some (1 : ℚ)), ((1 : ℤ), some "s", some (3 : ℚ))]
        v).length ≠ 0 ∧
      (segValsAfter [((0 : ℤ), some "s", some (1 : ℚ)), ((1 : ℤ), some "s", some (3 : ℚ))]
        v).length ≠ 0 ∧
      (⟨"g", "s", "m", some 1, some 50, some 3, 1⟩ : SegmentDriver).segment_column = "g" ∧
      (⟨"g", "s", "m", some 1, some 50, some 3, 1⟩ : SegmentDriver).segment_value = v ∧
      (⟨"g", "s", "m", some 1, some 50, some 3, 1⟩ : SegmentDriver).kpi = "m" ∧
      (⟨"g", "s", "m", some 1, some 50, some 3, 1⟩ : SegmentDriver).contribution_abs =
        (temporalContribAbs
          [((0 : ℤ), some "s", some (1 : ℚ)), ((1 : ℤ), some "s", some (3 : ℚ))] v).map
          (fun c => pyRound c 6) ∧
      (⟨"g", "s", "m", some 1, some 50, some 3, 1⟩ : SegmentDriver).contribution_pct =
        (temporalContribAbs
          [((0 : ℤ), some "s", some (1 : ℚ)), ((1 : ℤ), some "s", some (3 : ℚ))] v).map
          (fun c => pyRound (c / |Δ| * 100) 2) ∧
      (⟨"g", "s", "m", some 1, some 50, some 3, 1⟩ : SegmentDriver).segment_size =
        ((segValsBefore [((0 : ℤ), some "s", some (1 : ℚ)), ((1 : ℤ), some "s", some (3 : ℚ))]
            v).length +
          (segValsAfter [((0 : ℤ), some "s", some (1 : ℚ)), ((1 : ℤ), some "s", some (3 : ℚ))]
            v).length) / 2 ∧
      (∀ mb ma,
        meanO (segValsBefore
          [((0 : ℤ), some "s", some (1 : ℚ)), ((1 : ℤ), some "s", some (3 : ℚ))] v) = some mb →
        meanO (segValsAfter
          [((0 : ℤ), some "s", some (1 : ℚ)), ((1 : ℤ), some "s", some (3 : ℚ))] v) = some ma →
        temporalContribAbs
          [((0 : ℤ), some "s", some (1 : ℚ)), ((1 : ℤ), some "s", some (3 : ℚ))] v =
          some ((ma - mb) *
            ((((segValsBefore
                [((0 : ℤ), some "s", some (1 : ℚ)), ((1 : ℤ), some "s", some (3 : ℚ))]
                v).length : ℚ) +
              ((segValsAfter
                [((0 : ℤ), some "s", some (1 : ℚ)), ((1 : ℤ), some "s", some (3 : ℚ))]
                v).length : ℚ)) / 2 / (2 : ℚ))))) := by
  have hempty : temporalOverallChange ([] : List (ℤ × Option String × Option ℚ)) = none := by
    simp [temporalOverallChange, temporalBefore, temporalAfter, temporalSorted, meanO]
  have hsort : temporalSorted
      [((0 : ℤ), some "s", some (1 : ℚ)), ((1 : ℤ), some "s", some (3 : ℚ))]
      = [((0 : ℤ), some "s", some (1 : ℚ)), ((1 : ℤ), some "s", some (3 : ℚ))] :=
    List.mergeSort_of_sorted (by decide)
  have hoc : temporalOverallChange
      [((0 : ℤ), some "s", some (1 : ℚ)), ((1 : ℤ), some "s", some (3 : ℚ))] = some 2 := by
    norm_num [temporalOverallChange, temporalBefore, temporalAfter, hsort, meanO, meanQ,
      sumQ, List.filterMap_cons, List.filterMap_nil, id]
  have huniq : uniqueInOrder ["s", "s"] = ["s"] := by decide
  have hsb : segValsBefore
      [((0 : ℤ), some "s", some (1 : ℚ)), ((1 : ℤ), some "s", some (3 : ℚ))] "s"
      = [some 1] := by
    norm_num [segValsBefore, temporalBefore, hsort, List.filter_cons, List.filter_nil]
  have hsa : segValsAfter
      [((0 : ℤ), some "s", some (1 : ℚ)), ((1 : ℤ), some "s", some (3 : ℚ))] "s"
      = [some 3] := by
    norm_num [segValsAfter, temporalAfter, hsort, List.filter_cons, List.filter_nil]
  have hca : temporalContribAbs
      [((0 : ℤ), some "s", some (1 : ℚ)), ((1 : ℤ), some "s", some (3 : ℚ))] "s"
      = some 1 := by
    norm_num [temporalContribAbs, hsb, hsa, meanO, meanQ, sumQ, List.filterMap_cons,
      List.filterMap_nil, id]
  have hpr1 : pyRound (1 : ℚ) 6 = 1 := by norm_num [pyRound, pyRoundInt]
  have hpr2 : pyRound (50 : ℚ) 2 = 50 := by norm_num [pyRound, pyRoundInt]
  have hpr3 : pyRound (3 : ℚ) 6 = 3 := by norm_num [pyRound, pyRoundInt]
  have hcalc : calculate_temporal_contribution "g" "m"
      [((0 : ℤ), some "s", some (1 : ℚ)), ((1 : ℤ), some "s", some (3 : ℚ))]
      = [⟨"g", "s", "m", some 1, some 50, some 3, 1⟩] := by
    have hma3 : meanO [some (3 : ℚ)] = some 3 := by
      norm_num [meanO, meanQ, sumQ, List.filterMap_cons, List.filterMap_nil, id]
    simp only [calculate_temporal_contribution, hoc]
    norm_num [huniq, List.filterMap_cons, List.filterMap_nil, hsb, hsa, hca, hma3,
      hpr1, hpr2, hpr3]
  constructor
  · exact (claim_C7_temporal_contribution "g" "m" []).1 (Or.inl hempty)
  · exact (claim_C7_temporal_contribution "g" "m"
      [((0 : ℤ), some "s", some (1 : ℚ)), ((1 : ℤ), some "s", some (3 : ℚ))]).2
      ⟨"g", "s", "m", some 1, some 50, some 3, 1⟩
      (by rw [hcalc]; exact List.mem_singleton.mpr rfl)

/-- Recognizer of investigate-decline decisions. -/
def isInvestigateDecline : DecisionKind → Bool
  | DecisionKind.investigateDecline _ => true
  | _ => false

/-- The experiment generator never emits an investigate-decline
decision. -/
theorem expDecision_no_decline (e : List ExperimentResult) :
    (expDecision e).countP (fun d => isInvestigateDecline d.kind) = 0 := by
  cases e with
  | nil => simp [expDecision]
  | cons x xs =>
    simp only [expDecision]
    split_ifs <;> simp [isInvestigateDecline]

/-- The segment generator never emits an investigate-decline
decision. -/
theorem segDecision_no_decline (s : List SegmentDriver) :
    (segDecision s).countP (fun d => isInvestigateDecline d.kind) = 0 := by
  simp only [segDecision]
  split
  · simp
  · split_ifs <;> simp [isInvestigateDecline]

/-- The quality generator never emits an investigate-decline
decision. -/
theorem qualityDecision_no_decline (a : List Anomaly) :
    (qualityDecision a).countP (fun d => isInvestigateDecline d.kind) = 0 := by
  simp only [qualityDecision]
  split_ifs <;> simp [isInvestigateDecline]

/-- Each decision generator emits at most one decision. -/
theorem decision_parts_short (e : List ExperimentResult) (tr : List TrendSummary)
    (s : List SegmentDriver) (a : List Anomaly) :
    (expDecision e).length ≤ 1 ∧ (declineDecision tr).length ≤ 1 ∧
    (segDecision s).length ≤ 1 ∧ (qualityDecision a).length ≤ 1 := by
  refine ⟨?_, ?_, ?_, ?_⟩
  · cases e with
    | nil => simp [expDecision]
    | cons x xs =>
      simp only [expDecision]
      split_ifs <;> simp
  · simp only [declineDecision]
    split <;> simp
  · simp only [segDecision]
    split
    · simp
    · split_ifs <;> simp
  · simp only [qualityDecision]
    split_ifs <;> simp

/-- C8 as amended: when some trend is decreasing with recent change
below -10, generate_decisions emits exactly one investigate-decline
decision, and it is derived from the FIRST such trend in list order
(not the most-declining one). -/
theorem claim_C8_first_declining_trend (expResults : List ExperimentResult)
    (trends : List TrendSummary) (segDrivers : List SegmentDriver)
    (anomalies : List Anomaly) (t : TrendSummary) (rest : List TrendSummary)
    (h : trends.filter
      (fun u => u.direction = "decreasing" ∧ u.recent_change_pct < -10) = t :: rest) :
    (generate_decisions expResults trends segDrivers anomalies).countP
      (fun d => isInvestigateDecline d.kind) = 1 ∧
    (⟨DecisionKind.investigateDecline t.kpi, "high", [t.kpi]⟩ : RecommendedDecision)
      ∈ generate_decisions expResults trends segDrivers anomalies := by
  have hdecl : declineDecision trends
      = [⟨DecisionKind.investigateDecline t.kpi, "high", [t.kpi]⟩] := by
    unfold declineDecision
    rw [h]
  have hlen : (expDecision expResults ++ declineDecision trends ++
      segDecision segDrivers ++ qualityDecision anomalies).length ≤ 4 := by
    obtain ⟨h1, h2, h3, h4⟩ := decision_parts_short expResults trends segDrivers anomalies
    simp only [List.length_append]
    omega
  have htake : ((expDecision expResults ++ declineDecision trends ++
        segDecision segDrivers ++ qualityDecision anomalies).mergeSort decisionLe).take 5
      = (expDecision expResults ++ declineDecision trends ++
        segDecision segDrivers ++ qualityDecision anomalies).mergeSort decisionLe := by
    apply List.take_of_length_le
    rw [(List.mergeSort_perm _ decisionLe).length_eq]
    omega
  constructor
  · rw [generate_decisions, htake,
      (List.mergeSort_perm _ decisionLe).countP_eq (fun d => isInvestigateDecline d.kind)]
    simp only [List.countP_append, expDecision_no_decline, segDecision_no_decline,
      qualityDecision_no_decline, hdecl]
    simp [isInvestigateDecline]
  · rw [generate_decisions, htake, List.mem_mergeSort]
    rw [hdecl]
    simp

/-- C8 witness: a single declining trend produces exactly the one
investigate-decline decision for it. -/
theorem claim_C8_witness :
    (generate_decisions [] [⟨"a", "decreasing", 0, -11⟩] [] []).countP
      (fun d => isInvestigateDecline d.kind) = 1 ∧
    (⟨DecisionKind.investigateDecline "a", "high", ["a"]⟩ : RecommendedDecision)
      ∈ generate_decisions [] [⟨"a", "decreasing", 0, -11⟩] [] [] :=
  claim_C8_first_declining_trend [] [⟨"a", "decreasing", 0, -11⟩] [] []
    ⟨"a", "decreasing", 0, -11⟩ []
    (by norm_num [List.filter_cons, List.filter_nil])

/-- C8 counterexample: with two qualifying trends, the decision is
derived from the first in list order ("a", recent -11), not from the
most-declining one ("b", recent -50). -/
theorem claim_C8_counterexample :
    generate_decisions []
      [⟨"a", "decreasing", 0, -11⟩, ⟨"b", "decreasing", 0, -50⟩] [] []
      = [⟨DecisionKind.investigateDecline "a", "high", ["a"]⟩] ∧
    (-50 : ℚ) < -11 ∧ ("a" : String) ≠ "b" := by
  refine ⟨?_, by norm_num, by decide⟩
  have hfil : ([⟨"a", "decreasing", 0, -11⟩,
      ⟨"b", "decreasing", 0, -50⟩] : List TrendSummary).filter
      (fun u => u.direction = "decreasing" ∧ u.recent_change_pct < -10)
      = [⟨"a", "decreasing", 0, -11⟩, ⟨"b", "decreasing", 0, -50⟩] := by
    norm_num [List.filter_cons, List.filter_nil]
  norm_num [generate_decisions, expDecision, declineDecision, segDecision, qualityDecision,
    hfil, List.mergeSort_singleton]

/-- C5 counterexample: the column "users_cost" contains a count
keyword (users) and a money keyword (cost); the claim's priority order
(rate, count, money, duration) would classify it "count", but the
source checks money before count and classifies it "money". -/
theorem claim_C5_counterexample :
    (detect_kpis ["users_cost"]
      [("users_cost", ⟨"numeric", some 0, some 5⟩)]).map (fun k => k.kpi_type)
      = ["money"] ∧
    specOrderKpiType "users_cost" (some 0) (some 5) = "count" ∧
    ("money" : String) ≠ "count" := by
  refine ⟨?_, by decide, by decide⟩
  have h1 : kpiOfProfile ["users_cost"] ("users_cost", ⟨"numeric", some 0, some 5⟩)
      = some { column_name := "users_cost", kpi_type := "money", numerator := none,
               denominator := none, unit := "currency", is_primary := false } := by
    decide
  simp [detect_kpis, List.filterMap_cons, h1, List.mergeSort_singleton]

/-- C5 as amended: detect_kpis classifies every numeric non-id column
through classifyKpiType, whose priority order is rate first, then
money, then duration, then count; a column matching no keyword set is
"ratio" when the profiled min is at least 0 and the profiled max at
most 1 (defaults 0 and 2 when absent), otherwise "count". -/
theorem claim_C5_keyword_priority (dfColumns : List String)
    (profiles : List (String × ColProfile)) :
    (∀ k ∈ detect_kpis dfColumns profiles, ∃ p, (k.column_name, p) ∈ profiles ∧
      p.semantic_type = "numeric" ∧ endsWithStr k.column_name "_id" = false ∧
      k.column_name ≠ "id" ∧
      k.kpi_type = (classifyKpiType (lowerStr k.column_name) p.minV p.maxV).1) ∧
    (∀ c mn mx, hasAnyKeyword c rateKeywords = true →
      (classifyKpiType c mn mx).1 = "rate") ∧
    (∀ c mn mx, hasAnyKeyword c rateKeywords = false →
      hasAnyKeyword c moneyKeywords = true → (classifyKpiType c mn mx).1 = "money") ∧
    (∀ c mn mx, hasAnyKeyword c rateKeywords = false →
      hasAnyKeyword c moneyKeywords = false → hasAnyKeyword c durationKeywords = true →
      (classifyKpiType c mn mx).1 = "duration") ∧
    (∀ c mn mx, hasAnyKeyword c rateKeywords = false →
      hasAnyKeyword c moneyKeywords = false → hasAnyKeyword c durationKeywords = false →
      hasAnyKeyword c countKeywords = true → (classifyKpiType c mn mx).1 = "count") ∧
    (∀ (c : String) (mn mx : Option ℚ), hasAnyKeyword c rateKeywords = false →
      hasAnyKeyword c moneyKeywords = false → hasAnyKeyword c durationKeywords = false →
      hasAnyKeyword c countKeywords = false →
      (classifyKpiType c mn mx).1 =
        if 0 ≤ mn.getD 0 ∧ mx.getD 2 ≤ 1 then "ratio" else "count") := by
  refine ⟨?_, ?_, ?_, ?_, ?_, ?_⟩
  · intro k hk
    have hk2 := List.mem_mergeSort.mp hk
    obtain ⟨cp, hcp, hf⟩ := List.mem_filterMap.mp hk2
    simp only [kpiOfProfile] at hf
    split_ifs at hf with h1 h2
    all_goals cases hf
    all_goals exact ⟨cp.2, by simpa using hcp, not_not.mp h1,
      by simpa using (not_or.mp h2).1, (not_or.mp h2).2, rfl⟩
  · intro c mn mx h
    simp [classifyKpiType, h]
  · intro c mn mx h1 h2
    simp [classifyKpiType, h1, h2]
  · intro c mn mx h1 h2 h3
    simp [classifyKpiType, h1, h2, h3]
  · intro c mn mx h1 h2 h3 h4
    simp [classifyKpiType, h1, h2, h3, h4]
  · intro c mn mx h1 h2 h3 h4
    simp only [classifyKpiType, h1, h2, h3, h4, Bool.false_eq_true, if_false]
    split_ifs <;> rfl

/-- C5 witness: the "users_cost" detection satisfies the classifier
link, and each priority branch of classifyKpiType fires on a concrete
column name. -/
theorem claim_C5_witness :
    (∃ p, (("users_cost" : String), p) ∈
        [(("users_cost" : String), (⟨"numeric", some 0, some 5⟩ : ColProfile))] ∧
      p.semantic_type = "numeric" ∧ endsWithStr "users_cost" "_id" = false ∧
      ("users_cost" : String) ≠ "id" ∧
      ("money" : String) = (classifyKpiType (lowerStr "users_cost") p.minV p.maxV).1) ∧
    (classifyKpiType "x_rate" none none).1 = "rate" ∧
    (classifyKpiType "x_cost" none none).1 = "money" ∧
    (classifyKpiType "x_latency" none none).1 = "duration" ∧
    (classifyKpiType "x_users" none none).1 = "count" ∧
    (classifyKpiType "zz" (some 0) (some 1)).1 =
      if 0 ≤ (some (0 : ℚ)).getD 0 ∧ (some (1 : ℚ)).getD 2 ≤ 1 then "ratio" else "count" := by
  have h1 : kpiOfProfile ["users_cost"] ("users_cost", ⟨"numeric", some 0, some 5⟩)
      = some { column_name := "users_cost", kpi_type := "money", numerator := none,
               denominator := none, unit := "currency", is_primary := false } := by
    decide
  have hdet : detect_kpis ["users_cost"] [("users_cost", ⟨"numeric", some 0, some 5⟩)]
      = [{ column_name := "users_cost", kpi_type := "money", numerator := none,
           denominator := none, unit := "currency", is_primary := false }] := by
    simp [detect_kpis, List.filterMap_cons, h1, List.mergeSort_singleton]
  refine ⟨?_, ?_, ?_, ?_, ?_, ?_⟩
  · exact (claim_C5_keyword_priority ["users_cost"]
      [("users_cost", ⟨"numeric", some 0, some 5⟩)]).1
      { column_name := "users_cost", kpi_type := "money", numerator := none,
        denominator := none, unit := "currency", is_primary := false }
      (by rw [hdet]; exact List.mem_singleton.mpr rfl)
  · exact (claim_C5_keyword_priority [] []).2.1 "x_rate" none none (by decide)
  · exact (claim_C5_keyword_priority [] []).2.2.1 "x_cost" none none (by decide) (by decide)
  · exact (claim_C5_keyword_priority [] []).2.2.2.1 "x_latency" none none
      (by decide) (by decide) (by decide)
  · exact (claim_C5_keyword_priority [] []).2.2.2.2.1 "x_users" none none
      (by decide) (by decide) (by decide) (by decide)
  · exact (claim_C5_keyword_priority [] []).2.2.2.2.2 "zz" (some 0) (some 1)
      (by decide) (by decide) (by decide) (by decide)

/-- Appending a fresh frame leaves every existing reference intact. -/
theorem getFrame_append (s : Store) (f : Frame) (df : ℕ) (h : df < s.length) :
    getFrame (s ++ [f]) df = getFrame s df :=
  List.getD_append s [f] [] df h

/-- Writing through a reference different from df leaves df intact. -/
theorem getFrame_set_ne (s : Store) (r : ℕ) (f : Frame) (df : ℕ) (h : r ≠ df) :
    getFrame (s.set r f) df = getFrame s df := by
  simp [getFrame, List.getD_eq_getElem?_getD, List.getElem?_set_ne h]

/-- C9: none of the modelled core operations changes the frame the
caller's reference points to: analyze_trends and detect_change_points
sort into a fresh copy, analyze_experiment only reads,
detect_peeking_risk assigns its day_of_week column on a copy, and the
segment decomposition sorts into a fresh frame. -/
theorem claim_C9_no_caller_mutation (s : Store) (df : ℕ) (h : df < s.length)
    (dow : List (Option ℚ)) :
    getFrame (analyze_trends_frameFx s df) df = getFrame s df ∧
    getFrame (detect_change_points_frameFx s df) df = getFrame s df ∧
    getFrame (analyze_experiment_frameFx s df) df = getFrame s df ∧
    getFrame (detect_peeking_risk_frameFx s df dow) df = getFrame s df ∧
    getFrame (analyze_segment_drivers_frameFx s df) df = getFrame s df := by
  have hlt1 : df < (s ++ [getFrame s df]).length := by
    simp only [List.length_append, List.length_cons, List.length_nil]
    omega
  refine ⟨?_, ?_, ?_, ?_, ?_⟩
  · simp only [analyze_trends_frameFx, sortValuesFx, copyFx, allocFrame]
    rw [getFrame_append _ _ _ hlt1, getFrame_append _ _ _ h]
  · simp only [detect_change_points_frameFx, sortValuesFx, copyFx, allocFrame]
    rw [getFrame_append _ _ _ hlt1, getFrame_append _ _ _ h]
  · rfl
  · simp only [detect_peeking_risk_frameFx, copyFx, allocFrame, setColumnFx]
    rw [getFrame_set_ne _ _ _ _ (by omega), getFrame_append _ _ _ h]
  · simp only [analyze_segment_drivers_frameFx, sortValuesFx, allocFrame]
    exact getFrame_append _ _ _ h

/-- C9 witness: a one-frame store is untouched by all five modelled
operations. -/
theorem claim_C9_witness :
    getFrame (analyze_trends_frameFx [[("d", [])]] 0) 0 = getFrame [[("d", [])]] 0 ∧
    getFrame (detect_change_points_frameFx [[("d", [])]] 0) 0 = getFrame [[("d", [])]] 0 ∧
    getFrame (analyze_experiment_frameFx [[("d", [])]] 0) 0 = getFrame [[("d", [])]] 0 ∧
    getFrame (detect_peeking_risk_frameFx [[("d", [])]] 0 []) 0 = getFrame [[("d", [])]] 0 ∧
    getFrame (analyze_segment_drivers_frameFx [[("d", [])]] 0) 0 = getFrame [[("d", [])]] 0 :=
  claim_C9_no_caller_mutation [[("d", [])]] 0 (by decide) []

end MetricsCopilot